import Mathlib

/-!
# Verification of the request execution and pagination engine

Shallow embedding of `src/pyasana/client.py`: option merging (`_merge`,
`_merge_options`), the retry/backoff loop of `Client.request`, the
status-code classification (`STATUS_MAP`), the page iterator
(`_PageIterator`), the item iterator (`Client._get_item_iterator`) and the
`Client.get_collection` dispatch.

Python dictionaries are embedded as association lists with unique keys;
`dict.update` replaces the value of an existing key (keeping its position)
or appends a new binding, and lookup returns the first binding for a key.
-/

set_option autoImplicit false

universe u

/-- A Python value, as far as this client manipulates one: ints, bools,
floats (embedded exactly as rationals), strings, `None`, lists and dicts. -/
inductive PyVal where
  | int (n : ℤ)
  | bool (b : Bool)
  | rat (q : ℚ)
  | str (s : String)
  | none
  | list (xs : List PyVal)
  | dict (d : List (String × PyVal))

/-- Lookup in an association-list dictionary: first binding for the key. -/
def dget {α : Type u} (d : List (String × α)) (k : String) : Option α :=
  match d with
  | [] => Option.none
  | p :: rest => if p.1 = k then some p.2 else dget rest k

/-- Assignment of `v` to key `k`: replace the first binding of `k` in
place, or append a new one. -/
def dset {α : Type u} (d : List (String × α)) (k : String) (v : α) :
    List (String × α) :=
  match d with
  | [] => [(k, v)]
  | p :: rest => if p.1 = k then (k, v) :: rest else p :: dset rest k v

/-- Update of `d` with `e`: set every binding of `e` into `d`, left to
right, as the Python dict update method does. -/
def dupdate {α : Type u} (d e : List (String × α)) : List (String × α) :=
  e.foldl (fun acc p => dset acc p.1 p.2) d

/-- Effect of the Python dict pop method on the dict itself: remove the
binding of `k` when present. -/
def dpop {α : Type u} (d : List (String × α)) (k : String) :
    List (String × α) :=
  match d with
  | [] => []
  | p :: rest => if p.1 = k then rest else p :: dpop rest k

/-- The merge helper of client.py lines 179-182: start from the empty dict
and update with each object in order, so later objects win key-by-key. -/
def pymerge {α : Type u} (objects : List (List (String × α))) :
    List (String × α) :=
  objects.foldl dupdate []

/-- First-some choice on `Option`, the shape of "Q[k] if present, else …". -/
def oor {α : Type u} (a b : Option α) : Option α :=
  match a with
  | some v => some v
  | Option.none => b

theorem oor_none {α : Type u} (a : Option α) : oor a Option.none = a := by
  cases a <;> rfl

theorem dget_eq_none_of_not_mem {α : Type u} (d : List (String × α))
    (k : String) (h : k ∉ d.map Prod.fst) : dget d k = Option.none := by
  induction d with
  | nil => rfl
  | cons p rest ih =>
      simp only [List.map_cons, List.mem_cons, not_or] at h
      have h1 : ¬p.1 = k := fun hk => h.1 hk.symm
      simp [dget, h1, ih h.2]

theorem dget_dset {α : Type u} (d : List (String × α)) (k k' : String)
    (v : α) :
    dget (dset d k v) k' = if k = k' then some v else dget d k' := by
  induction d with
  | nil =>
      by_cases h : k = k' <;> simp [dset, dget, h]
  | cons p rest ih =>
      by_cases hp : p.1 = k
      · by_cases h : k = k' <;> simp [dset, dget, hp, h]
      · by_cases h : p.1 = k'
        · have hkk : ¬k = k' := fun he => hp (h.trans he.symm)
          have hkk2 : ¬k' = k := fun he => hp (h.trans he)
          simp [dset, dget, hp, h, hkk, hkk2]
        · simp [dset, dget, hp, h, ih]

/-- Updating with a well-formed dict `e` makes the bindings of `e` win. -/
theorem dget_dupdate {α : Type u} (e : List (String × α))
    (he : (e.map Prod.fst).Nodup) (d : List (String × α)) (k : String) :
    dget (dupdate d e) k = oor (dget e k) (dget d k) := by
  induction e generalizing d with
  | nil => simp [dupdate, dget, oor]
  | cons p rest ih =>
      simp only [List.map_cons, List.nodup_cons] at he
      have step : dupdate d (p :: rest) = dupdate (dset d p.1 p.2) rest := rfl
      rw [step, ih he.2, dget_dset]
      by_cases h : p.1 = k
      · have hnone : dget rest k = Option.none :=
          dget_eq_none_of_not_mem rest k (h ▸ he.1)
        simp [dget, h, hnone, oor]
      · simp [dget, h]

theorem dget_pymerge_three {α : Type u} (D C Q : List (String × α))
    (hD : (D.map Prod.fst).Nodup) (hC : (C.map Prod.fst).Nodup)
    (hQ : (Q.map Prod.fst).Nodup) (k : String) :
    dget (pymerge [D, C, Q]) k =
      oor (dget Q k) (oor (dget C k) (dget D k)) := by
  have hm : pymerge [D, C, Q] = dupdate (dupdate (dupdate [] D) C) Q := rfl
  rw [hm, dget_dupdate Q hQ, dget_dupdate C hC, dget_dupdate D hD]
  simp [dget, oor_none]

/-- Modelled from the spec: the `error` module (AsanaError subclasses) is
not under src/; its kinds come from the taxonomy table in §7 of the spec. -/
inductive ErrorKind where
  | invalidRequest
  | noAuthorization
  | forbidden
  | notFound
  | preconditionFailed
  | rateLimitEnforced
  | serverError
  deriving DecidableEq

/-- Modelled from the spec: which kinds subclass `RetryableAsanaError`
(§7: only the rate-limit and server-error kinds are retryable). -/
def ErrorKind.retryable : ErrorKind → Bool
  | .rateLimitEnforced => true
  | .serverError => true
  | _ => false

/-- Modelled from the spec: `STATUS_MAP` (client.py lines 16-19) is built
by scanning the missing `error` module; its contents follow the §7 table
(400, 401, 403, 404, 409, 412, 429, 500, 502/503/504). Codes outside the
table have no entry. -/
def STATUS_MAP (status : Nat) : Option ErrorKind :=
  if status = 400 then some .invalidRequest
  else if status = 401 then some .noAuthorization
  else if status = 403 then some .forbidden
  else if status = 404 then some .notFound
  else if status = 409 then some .invalidRequest
  else if status = 412 then some .preconditionFailed
  else if status = 429 then some .rateLimitEnforced
  else if status = 500 ∨ status = 502 ∨ status = 503 ∨ status = 504 then
    some .serverError
  else Option.none

/-- A transport response: HTTP status, decoded JSON body, and the
`retry_after` value a 429 response reports (modelled from the spec:
the rate-limit error class extracts it from the response). -/
structure HttpResponse where
  status : Nat
  body : PyVal
  retryAfter : ℚ

/-- The typed failure `STATUS_MAP[status_code](response)` raises: an error
kind applied to the offending response (client.py line 53). -/
structure AsanaFailure where
  kind : ErrorKind
  response : HttpResponse

/-- Classify a response as in `Client.request` line 52: a status with a
`STATUS_MAP` entry raises that class applied to the response. -/
def classify (r : HttpResponse) : Option AsanaFailure :=
  (STATUS_MAP r.status).map (fun k => ⟨k, r⟩)

/-- Is the response one whose classified failure the except clause of the
loop (catching only RetryableAsanaError) absorbs? -/
def isRetryableResp (r : HttpResponse) : Bool :=
  match STATUS_MAP r.status with
  | some k => k.retryable
  | Option.none => false

/-- The value of the `retries` option: an integer or the boolean sentinel
(`True` in the source; the spec names it `"infinite"`). -/
inductive RetriesOpt where
  | int (n : ℤ)
  | bool (b : Bool)

/-- Line 46 of client.py: the retries option becomes the float infinity
when it compares equal to the boolean True, and is kept as is otherwise;
here `Option.none` stands for that infinity. Python compares booleans with
integers numerically, so the integer 1 also compares equal to True and is
likewise converted to the unbounded counter; the boolean False is not, and
behaves as the number 0 in the later positivity test. -/
def toCounter : RetriesOpt → Option ℤ
  | .bool true => Option.none
  | .bool false => some 0
  | .int n => if n = 1 then Option.none else some n

/-- The test of line 60, retries strictly positive, on the converted
counter; infinity is positive. -/
def counterPos : Option ℤ → Bool
  | Option.none => true
  | some n => 0 < n

/-- The decrement of line 61 on the converted counter; infinity minus one
stays infinity. -/
def counterDec : Option ℤ → Option ℤ
  | Option.none => Option.none
  | some n => some (n - 1)

/-- The mutable loop state of one `Client.request` invocation: the
converted retry counter and the current `retry_delay`. -/
structure RetryState where
  retries : Option ℤ
  delay : ℚ
  deriving DecidableEq

/-- What one loop iteration does after the transport call. -/
inductive StepOut where
  | ret (v : Option PyVal)
  | raised (e : AsanaFailure)
  | retry (sleep : ℚ) (s : RetryState)

/-- Extraction of the data field from the decoded body (line 58); needs a
dict body with a data key, and `Option.none` stands for the KeyError
raised otherwise. -/
def bodyData : PyVal → Option PyVal
  | .dict d => dget d "data"
  | _ => Option.none

/-- One iteration of the `while True` loop of `Client.request` (lines
49-69): call the transport, classify; unmapped status returns the payload
(full, or only its data field); a non-retryable failure propagates; a retryable one
retries while `retries > 0` (rate-limit sleeps `retry_after` and leaves the
backoff delay alone, others sleep `delay` and multiply it by
`retry_backoff`), else the failure is re-raised. -/
def execStep (backoff : ℚ) (fullPayload : Bool) (s : RetryState)
    (r : HttpResponse) : StepOut :=
  match classify r with
  | Option.none =>
      .ret (if fullPayload then some r.body else bodyData r.body)
  | some e =>
      if e.kind.retryable then
        if counterPos s.retries then
          if e.kind = .rateLimitEnforced then
            .retry r.retryAfter ⟨counterDec s.retries, s.delay⟩
          else
            .retry s.delay ⟨counterDec s.retries, s.delay * backoff⟩
        else .raised e
      else .raised e

/-- The outcome of running the loop against a finite supply of transport
responses: a returned value, a raised failure, or the supply ran out while
the loop still wanted another attempt. -/
inductive ExecOutcome where
  | ret (v : Option PyVal)
  | raised (e : AsanaFailure)
  | outOfResponses

/-- Observable trace of one `Client.request` run: how many transport
attempts were made, the sleeps performed between them, and the outcome. -/
structure ExecTrace where
  attempts : Nat
  sleeps : List ℚ
  outcome : ExecOutcome

/-- Run the loop of `Client.request`, consuming one supplied response per
transport attempt. -/
def execRun (backoff : ℚ) (fullPayload : Bool) (s : RetryState) :
    List HttpResponse → ExecTrace
  | [] => ⟨0, [], .outOfResponses⟩
  | r :: rs =>
      match execStep backoff fullPayload s r with
      | .ret v => ⟨1, [], .ret v⟩
      | .raised e => ⟨1, [], .raised e⟩
      | .retry sl s1 =>
          let t := execRun backoff fullPayload s1 rs
          ⟨t.attempts + 1, sl :: t.sleeps, t.outcome⟩

/-- The configuration `Client.request` reads from the merged options. -/
structure RequestConfig where
  retries : RetriesOpt
  retry_delay : ℚ
  retry_backoff : ℚ
  full_payload : Bool

/-- The request method of Client (lines 43-69): convert the retries option
(line 46), seed the delay with the configured retry_delay (line 47) and
run the loop against the successive responses of the transport. -/
def request (cfg : RequestConfig) (responses : List HttpResponse) :
    ExecTrace :=
  execRun cfg.retry_backoff cfg.full_payload
    ⟨toCounter cfg.retries, cfg.retry_delay⟩ responses

/-- A pagination cursor, the next_page object of the wire envelope:
a path to follow and an opaque offset token. -/
structure Cursor where
  path : String
  offset : Option String

/-- The envelope a collection request returns when full_payload is
forced: the data list and an optional continuation cursor. -/
structure Envelope where
  data : List PyVal
  next_page : Option Cursor

/-- The next_page attribute of a page iterator (line 159 and 171): it
starts as the Python False, holds a cursor dict after a page that has one,
and is the Python None once a fetched envelope had no next_page. -/
inductive PageCursor where
  | notStarted
  | cursor (c : Cursor)
  | exhausted

/-- One call the page iterator makes to the get method of the client: the
positional path and query plus the carried keyword options. -/
structure GetCall where
  path : String
  query : List (String × PyVal)
  options : List (String × PyVal)

/-- The state of a page iterator (lines 154-159). -/
structure PageIterState where
  path : String
  query : List (String × PyVal)
  options : List (String × PyVal)
  next_page : PageCursor

/-- Turn the next_page field of a fetched envelope into the stored
state, as line 171 does with a get that defaults to None. -/
def ofNextPage : Option Cursor → PageCursor
  | Option.none => PageCursor.exhausted
  | some c => PageCursor.cursor c

/-- The page iterator constructor (lines 154-159): remember path, query
and options with full_payload forced to True, and mark the iterator as
not yet started. -/
def pageIterInit (path : String) (query options : List (String × PyVal)) :
    PageIterState :=
  ⟨path, query, pymerge [options, [("full_payload", PyVal.bool true)]],
   PageCursor.notStarted⟩

/-- What one step of the page iterator produces: a page together with the
get call that fetched it, or the StopIteration signal. -/
inductive PageStepResult where
  | yieldPage (call : GetCall) (page : List PyVal)
  | stop

/-- One step of the page iterator (lines 164-174), with the transport
behind the get method of the client abstracted as `fetch`. Not yet
started: fetch the original path and query with the carried options.
Live cursor: pop any offset option, fetch the cursor path with an empty
query. In both cases the stored cursor becomes the next_page of the new
envelope. Exhausted: raise StopIteration without touching the state and
without any fetch. -/
def pageIterNext (fetch : GetCall → Envelope) (s : PageIterState) :
    PageStepResult × PageIterState :=
  match s.next_page with
  | PageCursor.exhausted => (PageStepResult.stop, s)
  | PageCursor.notStarted =>
      let call : GetCall := ⟨s.path, s.query, s.options⟩
      let result := fetch call
      (PageStepResult.yieldPage call result.data,
       { s with next_page := ofNextPage result.next_page })
  | PageCursor.cursor c =>
      let opts := dpop s.options "offset"
      let call : GetCall := ⟨c.path, [], opts⟩
      let result := fetch call
      (PageStepResult.yieldPage call result.data,
       { s with options := opts, next_page := ofNextPage result.next_page })

/-- The results of `n` consecutive steps of the page iterator. -/
def pageIterRun (fetch : GetCall → Envelope) :
    PageIterState → Nat → List PageStepResult
  | _, 0 => []
  | s, n + 1 =>
      let step := pageIterNext fetch s
      step.1 :: pageIterRun fetch step.2 n

/-- How the item iterator generator ends, seen from its consumer. -/
inductive GenEnd where
  | normal
  | runtimeError

/-- The items the nested for loops of lines 108-110 yield, given the
pages the underlying page iterator produced: each page in order, each
item of a page in order. -/
def itemIterYields : List (List PyVal) → List PyVal
  | [] => []
  | page :: rest => page ++ itemIterYields rest

/-- The observable behaviour of the item iterator generator (lines
107-111) on a terminating page iterator that produced the given pages:
the yielded items, and the way the generator ends. After the outer for
loop finishes, line 111 executes a raise of StopIteration inside the
generator body; under PEP 479 (Python 3.7 and later) that surfaces to the
consumer as a RuntimeError, not as a normal end of iteration. -/
def itemIterRun (pages : List (List PyVal)) : List PyVal × GenEnd :=
  (itemIterYields pages, GenEnd.runtimeError)

/-- Python equality of a value against a string literal. -/
def pyEqStr : PyVal → String → Bool
  | PyVal.str s2, s => s2 = s
  | _, _ => false

/-- Python equality of a value against None: only None equals None. -/
def pyIsNone : PyVal → Bool
  | PyVal.none => true
  | _ => false

/-- What get_collection returns or raises. The last two are not typed
failures of the error taxonomy: `keyError` is a KeyError on a missing
iterator_type key, and `nameError` is the NameError raised at line 85
because the name Error used there is defined nowhere in client.py (the
module imports only the error module, not any Error name, and no such
builtin exists). -/
inductive CollectionResult where
  | pageIterator (s : PageIterState)
  | itemIterator (s : PageIterState)
  | directGet (call : GetCall)
  | nameError
  | keyError

/-- The get_collection method (lines 77-85): merge the client options
with the per-call options, then dispatch on the resolved iterator_type
value, in order: the string pages, the string items, None, and otherwise
the raise at line 85, which itself fails with a NameError. -/
def get_collection (clientOptions : List (String × PyVal)) (path : String)
    (query : List (String × PyVal)) (options : List (String × PyVal)) :
    CollectionResult :=
  let opts := pymerge [clientOptions, options]
  match dget opts "iterator_type" with
  | Option.none => CollectionResult.keyError
  | some v =>
      if pyEqStr v "pages" then
        CollectionResult.pageIterator (pageIterInit path query opts)
      else if pyEqStr v "items" then
        CollectionResult.itemIterator (pageIterInit path query opts)
      else if pyIsNone v then
        CollectionResult.directGet ⟨path, query, opts⟩
      else CollectionResult.nameError

/-- The sleeps one run performs from delay `d` on an all-retryable
response list: a rate-limited response contributes its retry_after and
leaves the delay alone, any other contributes the current delay and
multiplies it by the backoff. -/
def expectedSleeps (d b : ℚ) : List HttpResponse → List ℚ
  | [] => []
  | r :: rs =>
      if STATUS_MAP r.status = some ErrorKind.rateLimitEnforced then
        r.retryAfter :: expectedSleeps d b rs
      else d :: expectedSleeps (d * b) b rs

/-- With the unbounded counter, every classified-retryable response is
absorbed: the run consumes the whole supply, one attempt per response,
sleeping as described by `expectedSleeps`, and ends wanting more. -/
theorem execRun_unbounded (b : ℚ) (fp : Bool) (rs : List HttpResponse)
    (h : ∀ r ∈ rs, isRetryableResp r = true) :
    ∀ d : ℚ, execRun b fp ⟨Option.none, d⟩ rs =
      ⟨rs.length, expectedSleeps d b rs, ExecOutcome.outOfResponses⟩ := by
  induction rs with
  | nil => intro d; rfl
  | cons r rest ih =>
      intro d
      have hr := h r (List.mem_cons_self r rest)
      have hrest : ∀ x ∈ rest, isRetryableResp x = true :=
        fun x hx => h x (List.mem_cons_of_mem r hx)
      cases hm : STATUS_MAP r.status with
      | none => simp [isRetryableResp, hm] at hr
      | some k =>
          have hk : k.retryable = true := by
            simpa [isRetryableResp, hm] using hr
          by_cases hrl : k = ErrorKind.rateLimitEnforced
          · subst hrl
            simp [execRun, execStep, classify, hm, hk, counterPos,
                  counterDec, expectedSleeps, ih hrest d]
          · simp [execRun, execStep, classify, hm, hk, counterPos,
                  counterDec, hrl, expectedSleeps, ih hrest (d * b)]

/-- C1 — the claim fails on the code at `retries = 1`: line 46 compares
the retries option to True with Python equality, and the integer 1
compares equal to True, so a configured budget of 1 is converted to the
unbounded counter. This theorem evaluates the code there: with retries
configured to the integer 1 and every response a retryable 500, the loop
absorbs all `m` supplied responses for every `m` (making `m` attempts and
never propagating), instead of stopping after 2 attempts. -/
theorem c1_retries_one_never_exhausts (m : ℕ) (d b : ℚ) (fp : Bool)
    (body : PyVal) (ra : ℚ) :
    (request ⟨RetriesOpt.int 1, d, b, fp⟩
        (List.replicate m ⟨500, body, ra⟩)).outcome =
      ExecOutcome.outOfResponses ∧
    (request ⟨RetriesOpt.int 1, d, b, fp⟩
        (List.replicate m ⟨500, body, ra⟩)).attempts = m := by
  have h : ∀ r ∈ List.replicate m (⟨500, body, ra⟩ : HttpResponse),
      isRetryableResp r = true := by
    intro r hr
    rw [List.eq_of_mem_replicate hr]
    rfl
  have hrun := execRun_unbounded b fp (List.replicate m ⟨500, body, ra⟩) h d
  have hc : toCounter (RetriesOpt.int 1) = Option.none := by
    simp [toCounter]
  simp [request, hc, hrun]

/-- C2 — with the retries option set to the unbounded sentinel (the
boolean True in the source, which the spec names "infinite"), no supply
of responses that are all classified retryable is ever exhausted into a
raise: every response is absorbed (one attempt each) and the loop asks
for another attempt. -/
theorem c2_infinite_retries_never_raise (d b : ℚ) (fp : Bool)
    (rs : List HttpResponse) (h : ∀ r ∈ rs, isRetryableResp r = true) :
    (request ⟨RetriesOpt.bool true, d, b, fp⟩ rs).outcome =
      ExecOutcome.outOfResponses ∧
    (request ⟨RetriesOpt.bool true, d, b, fp⟩ rs).attempts = rs.length := by
  have hrun := execRun_unbounded b fp rs h d
  simp [request, toCounter, hrun]

theorem c2_infinite_retries_never_raise_witness :
    (request ⟨RetriesOpt.bool true, 1, 2, false⟩
        [⟨500, PyVal.none, 0⟩, ⟨429, PyVal.none, 30⟩,
         ⟨503, PyVal.none, 0⟩]).outcome = ExecOutcome.outOfResponses ∧
    (request ⟨RetriesOpt.bool true, 1, 2, false⟩
        [⟨500, PyVal.none, 0⟩, ⟨429, PyVal.none, 30⟩,
         ⟨503, PyVal.none, 0⟩]).attempts = 3 :=
  c2_infinite_retries_never_raise 1 2 false _ (by decide)

/-- Does the classification of this response pick the rate-limit kind,
the test line 62 makes on the caught failure? -/
def isRateLimited (r : HttpResponse) : Bool :=
  match STATUS_MAP r.status with
  | some ErrorKind.rateLimitEnforced => true
  | _ => false

theorem isRateLimited_iff (r : HttpResponse) :
    isRateLimited r = true ↔
      STATUS_MAP r.status = some ErrorKind.rateLimitEnforced := by
  unfold isRateLimited
  cases hm : STATUS_MAP r.status with
  | none => simp
  | some k => cases k <;> simp

/-- Within one run, the sleeps performed at the non-rate-limited
positions form the geometric sequence starting at the initial delay. -/
theorem expectedSleeps_nonRL (b : ℚ) (rs : List HttpResponse) :
    ∀ d : ℚ,
      ((rs.zip (expectedSleeps d b rs)).filter
          (fun p => !isRateLimited p.1)).map Prod.snd =
        (List.range ((rs.filter (fun r => !isRateLimited r)).length)).map
          (fun k => d * b ^ k) := by
  induction rs with
  | nil => intro d; rfl
  | cons r rest ih =>
      intro d
      cases hrl : isRateLimited r with
      | true =>
          have hm : STATUS_MAP r.status = some ErrorKind.rateLimitEnforced :=
            (isRateLimited_iff r).1 hrl
          simp [expectedSleeps, hm, hrl, ih d]
      | false =>
          have hm : ¬STATUS_MAP r.status = some ErrorKind.rateLimitEnforced :=
            fun hc => by simp [(isRateLimited_iff r).2 hc] at hrl
          have hfun : ∀ k : ℕ, d * b * b ^ k = d * b ^ (k + 1) := by
            intro k
            rw [pow_succ]
            ring
          simp [expectedSleeps, hm, hrl, ih (d * b),
                List.range_succ_eq_map, List.map_map, Function.comp,
                Nat.succ_eq_add_one, hfun]

/-- C5 — uncapped exponential backoff for non-rate-limit retryable
errors: in one invocation with unbounded budget and every response
classified retryable, pairing each consumed response with the sleep its
retry performed and keeping only the non-rate-limited ones, the sleep of
the k-th such retry is exactly retry_delay times retry_backoff to the
power k. -/
theorem c5_backoff_geometric (d b : ℚ) (rs : List HttpResponse)
    (h : ∀ r ∈ rs, isRetryableResp r = true) :
    ((rs.zip ((request ⟨RetriesOpt.bool true, d, b, false⟩ rs).sleeps)).filter
        (fun p => !isRateLimited p.1)).map Prod.snd =
      (List.range ((rs.filter (fun r => !isRateLimited r)).length)).map
        (fun k => d * b ^ k) := by
  have hrun := execRun_unbounded b false rs h d
  have hs : (request ⟨RetriesOpt.bool true, d, b, false⟩ rs).sleeps =
      expectedSleeps d b rs := by
    simp [request, toCounter, hrun]
  rw [hs]
  exact expectedSleeps_nonRL b rs d

theorem c5_backoff_geometric_witness :
    ((([⟨500, PyVal.none, 0⟩, ⟨429, PyVal.none, 30⟩, ⟨502, PyVal.none, 0⟩,
        ⟨503, PyVal.none, 0⟩] :
          List HttpResponse).zip
        ((request ⟨RetriesOpt.bool true, 1, 2, false⟩
            [⟨500, PyVal.none, 0⟩, ⟨429, PyVal.none, 30⟩,
             ⟨502, PyVal.none, 0⟩, ⟨503, PyVal.none, 0⟩]).sleeps)).filter
        (fun p => !isRateLimited p.1)).map Prod.snd =
      (List.range
          ((([⟨500, PyVal.none, 0⟩, ⟨429, PyVal.none, 30⟩,
              ⟨502, PyVal.none, 0⟩, ⟨503, PyVal.none, 0⟩] :
                List HttpResponse).filter
              (fun r => !isRateLimited r)).length)).map
        (fun k => (1 : ℚ) * 2 ^ k) :=
  c5_backoff_geometric 1 2 _ (by decide)

/-- C6 — a rate-limit retry is server-driven: whenever the budget allows
a retry, the step on a 429 response sleeps exactly its retry_after,
whatever the configured delay and backoff are, and leaves the backoff
delay untouched; consequently in a run the non-rate-limit retry that
follows a rate-limit retry sleeps the same delay as it would have before
it. -/
theorem c6_rate_limit_overrides_backoff (b d ra : ℚ) (fp : Bool)
    (body1 body2 : PyVal) (ctr : Option ℤ) (h : counterPos ctr = true) :
    execStep b fp ⟨ctr, d⟩ ⟨429, body1, ra⟩ =
      StepOut.retry ra ⟨counterDec ctr, d⟩ ∧
    (execRun b fp ⟨Option.none, d⟩
        [⟨429, body1, ra⟩, ⟨500, body2, 0⟩]).sleeps = [ra, d] := by
  constructor
  · simp [execStep, classify, STATUS_MAP, ErrorKind.retryable, h]
  · simp [execRun, execStep, classify, STATUS_MAP, ErrorKind.retryable,
          counterPos, counterDec]

theorem c6_rate_limit_overrides_backoff_witness :
    execStep 2 false ⟨some 3, 1⟩ ⟨429, PyVal.none, 30⟩ =
      StepOut.retry 30 ⟨counterDec (some 3), 1⟩ ∧
    (execRun 2 false ⟨Option.none, 1⟩
        [⟨429, PyVal.none, 30⟩, ⟨500, PyVal.none, 0⟩]).sleeps = [30, 1] :=
  c6_rate_limit_overrides_backoff 2 1 30 false PyVal.none PyVal.none
    (some 3) (by decide)

/-- Did the run end in a raised (typed) failure? -/
def isRaisedOutcome : ExecOutcome → Bool
  | ExecOutcome.raised _ => true
  | _ => false

/-- C3 — counterexample to the claim as stated: the status 418 is outside
the classification table, yet the executor does not propagate any
failure; it returns the data field of the body as a success (the else
branch of line 54). -/
theorem c3_unmapped_status_counterexample :
    (request ⟨RetriesOpt.int 5, 1, 2, false⟩
        [⟨418, PyVal.dict [("data", PyVal.str "x")], 0⟩]).outcome =
      ExecOutcome.ret (some (PyVal.str "x")) ∧
    isRaisedOutcome
        ((request ⟨RetriesOpt.int 5, 1, 2, false⟩
            [⟨418, PyVal.dict [("data", PyVal.str "x")], 0⟩]).outcome) =
      false := by
  constructor
  · rfl
  · rfl

/-- C3 — what the code actually does (the amended claim): every response
whose status code has no entry in the classification table is treated as
success by the loop, whatever the retry state: the executor returns the
decoded body (the full envelope when full_payload is set, else its data
field), and raises nothing. -/
theorem c3_unmapped_status_returns_body (b : ℚ) (fp : Bool)
    (s : RetryState) (r : HttpResponse)
    (h : STATUS_MAP r.status = Option.none) :
    execStep b fp s r =
      StepOut.ret (if fp then some r.body else bodyData r.body) := by
  simp [execStep, classify, h]

theorem c3_unmapped_status_returns_body_witness :
    execStep 2 false ⟨some 5, 1⟩ ⟨418, PyVal.dict [("data", PyVal.str "x")], 0⟩ =
      StepOut.ret
        (if false then some (PyVal.dict [("data", PyVal.str "x")])
         else bodyData (PyVal.dict [("data", PyVal.str "x")])) :=
  c3_unmapped_status_returns_body 2 false ⟨some 5, 1⟩
    ⟨418, PyVal.dict [("data", PyVal.str "x")], 0⟩ (by decide)

/-- C4 — rightmost-wins shallow merge: for any three option tiers given
to the merge helper, lookup of any key in the result is its value in the
last tier that binds it. The statement is polymorphic in the value type:
values move wholesale, so nested values are never merged deeply. -/
theorem c4_merge_rightmost_wins {α : Type u} (D C Q : List (String × α))
    (hD : (D.map Prod.fst).Nodup) (hC : (C.map Prod.fst).Nodup)
    (hQ : (Q.map Prod.fst).Nodup) (k : String) :
    dget (pymerge [D, C, Q]) k =
      oor (dget Q k) (oor (dget C k) (dget D k)) :=
  dget_pymerge_three D C Q hD hC hQ k

theorem c4_merge_rightmost_wins_witness :
    dget (pymerge [[("a", 1), ("b", 2)], [("b", 3), ("c", 4)], [("c", 5)]])
        "b" = oor (dget [("c", 5)] "b")
          (oor (dget [("b", 3), ("c", 4)] "b")
            (dget [("a", 1), ("b", 2)] "b")) ∧
    dget (pymerge [[("a", 1), ("b", 2)], [("b", 3), ("c", 4)], [("c", 5)]])
        "b" = some 3 :=
  ⟨c4_merge_rightmost_wins [("a", 1), ("b", 2)] [("b", 3), ("c", 4)]
      [("c", 5)] (by decide) (by decide) (by decide) "b",
   by decide⟩

theorem pageIterNext_exhausted (fetch : GetCall → Envelope)
    (s : PageIterState) (h : s.next_page = PageCursor.exhausted) :
    pageIterNext fetch s = (PageStepResult.stop, s) := by
  simp [pageIterNext, h]

theorem pageIterRun_exhausted (fetch : GetCall → Envelope)
    (s : PageIterState) (h : s.next_page = PageCursor.exhausted) :
    ∀ n : ℕ, pageIterRun fetch s n = List.replicate n PageStepResult.stop := by
  intro n
  induction n with
  | zero => rfl
  | succ n ih =>
      simp [pageIterRun, pageIterNext_exhausted fetch s h, ih,
            List.replicate]

theorem pageIterNext_absorbs (fetch : GetCall → Envelope)
    (hf : ∀ call, (fetch call).next_page = Option.none)
    (s : PageIterState) (h : s.next_page ≠ PageCursor.exhausted) :
    ((pageIterNext fetch s).2).next_page = PageCursor.exhausted := by
  cases hs : s.next_page with
  | exhausted => exact absurd hs h
  | notStarted => simp [pageIterNext, hs, hf, ofNextPage]
  | cursor c => simp [pageIterNext, hs, hf, ofNextPage]

theorem dget_dpop {α : Type u} (d : List (String × α)) (k : String)
    (hnd : (d.map Prod.fst).Nodup) : dget (dpop d k) k = Option.none := by
  induction d with
  | nil => rfl
  | cons p rest ih =>
      simp only [List.map_cons, List.nodup_cons] at hnd
      by_cases hp : p.1 = k
      · simp only [dpop, if_pos hp]
        exact dget_eq_none_of_not_mem rest k (hp ▸ hnd.1)
      · simp [dpop, dget, hp, ih hnd.2]

/-- C7 — exhaustion of the page iterator is reached, absorbing and
idempotent. First: when the fetched envelopes carry no next_page, the
step from any non-exhausted state leaves the iterator exhausted. Second:
from an exhausted state, a step returns the StopIteration signal and
leaves the state untouched — for every fetch function, so no request is
issued. Third: hence any number of further steps keeps signalling
StopIteration. Fourth: a freshly constructed iterator is in the
not-yet-started state, which is a different state from exhausted. -/
theorem c7_exhaustion_absorbing_idempotent :
    (∀ fetch : GetCall → Envelope,
        (∀ call, (fetch call).next_page = Option.none) →
        ∀ s : PageIterState, s.next_page ≠ PageCursor.exhausted →
          ((pageIterNext fetch s).2).next_page = PageCursor.exhausted) ∧
    (∀ (fetch : GetCall → Envelope) (s : PageIterState),
        s.next_page = PageCursor.exhausted →
        pageIterNext fetch s = (PageStepResult.stop, s)) ∧
    (∀ (fetch : GetCall → Envelope) (s : PageIterState) (n : ℕ),
        s.next_page = PageCursor.exhausted →
        pageIterRun fetch s n = List.replicate n PageStepResult.stop) ∧
    (∀ (path : String) (query options : List (String × PyVal)),
        (pageIterInit path query options).next_page =
          PageCursor.notStarted) ∧
    PageCursor.notStarted ≠ PageCursor.exhausted := by
  refine ⟨pageIterNext_absorbs, pageIterNext_exhausted,
          fun fetch s n h => pageIterRun_exhausted fetch s h n,
          fun path query options => rfl, ?_⟩
  intro h
  exact PageCursor.noConfusion h

theorem c7_exhaustion_absorbing_idempotent_witness :
    ((pageIterNext (fun _ => ⟨[], Option.none⟩)
        ⟨"t", [], [], PageCursor.notStarted⟩).2).next_page =
      PageCursor.exhausted ∧
    pageIterNext (fun _ => ⟨[], Option.none⟩)
        ⟨"t", [], [], PageCursor.exhausted⟩ =
      (PageStepResult.stop, ⟨"t", [], [], PageCursor.exhausted⟩) ∧
    pageIterRun (fun _ => ⟨[], Option.none⟩)
        ⟨"t", [], [], PageCursor.exhausted⟩ 3 =
      List.replicate 3 PageStepResult.stop :=
  ⟨c7_exhaustion_absorbing_idempotent.1 _ (fun _ => rfl) _
      (by intro h; exact PageCursor.noConfusion h),
   c7_exhaustion_absorbing_idempotent.2.1 _ _ rfl,
   c7_exhaustion_absorbing_idempotent.2.2.1 _ _ 3 rfl⟩

/-- C8 — with a live cursor the next request drops the offset option
(lookup of offset in the carried options of the issued call answers
nothing), targets the cursor path with an empty query, and the stored
cursor becomes the next_page of the newly fetched envelope; from the
not-yet-started state the request instead targets the original path and
query with the carried options unchanged. -/
theorem c8_cursor_request_shape (fetch : GetCall → Envelope)
    (s : PageIterState) (c : Cursor)
    (hc : s.next_page = PageCursor.cursor c)
    (hnd : (s.options.map Prod.fst).Nodup) :
    pageIterNext fetch s =
      (PageStepResult.yieldPage ⟨c.path, [], dpop s.options "offset"⟩
         (fetch ⟨c.path, [], dpop s.options "offset"⟩).data,
       ⟨s.path, s.query, dpop s.options "offset",
        ofNextPage (fetch ⟨c.path, [], dpop s.options "offset"⟩).next_page⟩) ∧
    dget (dpop s.options "offset") "offset" = Option.none ∧
    (∀ s0 : PageIterState, s0.next_page = PageCursor.notStarted →
        pageIterNext fetch s0 =
          (PageStepResult.yieldPage ⟨s0.path, s0.query, s0.options⟩
             (fetch ⟨s0.path, s0.query, s0.options⟩).data,
           ⟨s0.path, s0.query, s0.options,
            ofNextPage (fetch ⟨s0.path, s0.query, s0.options⟩).next_page⟩)) := by
  refine ⟨?_, dget_dpop s.options "offset" hnd, ?_⟩
  · simp [pageIterNext, hc]
  · intro s0 h0
    simp [pageIterNext, h0]

theorem c8_cursor_request_shape_witness :
    pageIterNext (fun _ => ⟨[PyVal.str "t3"], Option.none⟩)
        ⟨"/tasks", [("limit", PyVal.int 2)],
         [("offset", PyVal.str "tok"), ("limit", PyVal.int 2)],
         PageCursor.cursor ⟨"/tasks?more", some "tok2"⟩⟩ =
      (PageStepResult.yieldPage
         ⟨"/tasks?more", [],
          dpop [("offset", PyVal.str "tok"), ("limit", PyVal.int 2)]
            "offset"⟩
         [PyVal.str "t3"],
       ⟨"/tasks", [("limit", PyVal.int 2)],
        dpop [("offset", PyVal.str "tok"), ("limit", PyVal.int 2)]
          "offset",
        ofNextPage Option.none⟩) ∧
    dget (dpop [("offset", PyVal.str "tok"), ("limit", PyVal.int 2)]
        "offset") "offset" = Option.none :=
  ⟨(c8_cursor_request_shape (fun _ => ⟨[PyVal.str "t3"], Option.none⟩)
      ⟨"/tasks", [("limit", PyVal.int 2)],
       [("offset", PyVal.str "tok"), ("limit", PyVal.int 2)],
       PageCursor.cursor ⟨"/tasks?more", some "tok2"⟩⟩
      ⟨"/tasks?more", some "tok2"⟩ rfl (by decide)).1,
   (c8_cursor_request_shape (fun _ => ⟨[PyVal.str "t3"], Option.none⟩)
      ⟨"/tasks", [("limit", PyVal.int 2)],
       [("offset", PyVal.str "tok"), ("limit", PyVal.int 2)],
       PageCursor.cursor ⟨"/tasks?more", some "tok2"⟩⟩
      ⟨"/tasks?more", some "tok2"⟩ rfl (by decide)).2.1⟩

theorem itemIterYields_eq_flatten (pages : List (List PyVal)) :
    itemIterYields pages = pages.flatten := by
  induction pages with
  | nil => rfl
  | cons p rest ih => simp [itemIterYields, ih]

/-- C9 — the generator behind the item iterator yields exactly the
in-order concatenation of the pages (intra-page and inter-page order
preserved), but it does not end the iteration normally: the raise of
StopIteration at line 111 executes inside the generator body after the
last item, and under PEP 479 (Python 3.7 and later) the consumer sees a
RuntimeError there instead of a clean end of sequence. -/
theorem c9_item_iterator_flattens_then_runtime_error
    (pages : List (List PyVal)) :
    (itemIterRun pages).1 = pages.flatten ∧
    (itemIterRun pages).2 = GenEnd.runtimeError ∧
    (itemIterRun pages).2 ≠ GenEnd.normal := by
  refine ⟨itemIterYields_eq_flatten pages, rfl, ?_⟩
  intro h
  exact GenEnd.noConfusion h

/-- C10 — the get_collection dispatch on the resolved iterator_type
value: the string pages gives a page iterator, the string items an item
iterator, None delegates to a direct get, and any other value reaches
line 85, whose raise fails with an unhandled NameError (the name Error is
undefined in client.py), not with a typed failure of the error
taxonomy. -/
theorem c10_get_collection_dispatch
    (clientOptions options : List (String × PyVal)) (path : String)
    (query : List (String × PyVal)) (v : PyVal)
    (hv : dget (pymerge [clientOptions, options]) "iterator_type" =
      some v) :
    (pyEqStr v "pages" = true →
        get_collection clientOptions path query options =
          CollectionResult.pageIterator
            (pageIterInit path query (pymerge [clientOptions, options]))) ∧
    (pyEqStr v "pages" = false → pyEqStr v "items" = true →
        get_collection clientOptions path query options =
          CollectionResult.itemIterator
            (pageIterInit path query (pymerge [clientOptions, options]))) ∧
    (pyEqStr v "pages" = false → pyEqStr v "items" = false →
        pyIsNone v = true →
        get_collection clientOptions path query options =
          CollectionResult.directGet
            ⟨path, query, pymerge [clientOptions, options]⟩) ∧
    (pyEqStr v "pages" = false → pyEqStr v "items" = false →
        pyIsNone v = false →
        get_collection clientOptions path query options =
          CollectionResult.nameError) := by
  refine ⟨?_, ?_, ?_, ?_⟩
  · intro h1
    simp [get_collection, hv, h1]
  · intro h1 h2
    simp [get_collection, hv, h1, h2]
  · intro h1 h2 h3
    simp [get_collection, hv, h1, h2, h3]
  · intro h1 h2 h3
    simp [get_collection, hv, h1, h2, h3]

theorem c10_get_collection_dispatch_witness :
    get_collection [("iterator_type", PyVal.int 7)] "/tasks" [] [] =
      CollectionResult.nameError ∧
    get_collection [("iterator_type", PyVal.str "pages")] "/tasks" [] [] =
      CollectionResult.pageIterator
        (pageIterInit "/tasks" []
          (pymerge [[("iterator_type", PyVal.str "pages")], []])) ∧
    get_collection [("iterator_type", PyVal.none)] "/tasks" [] [] =
      CollectionResult.directGet
        ⟨"/tasks", [], pymerge [[("iterator_type", PyVal.none)], []]⟩ :=
  ⟨(c10_get_collection_dispatch [("iterator_type", PyVal.int 7)] []
      "/tasks" [] (PyVal.int 7) rfl).2.2.2 rfl rfl rfl,
   (c10_get_collection_dispatch [("iterator_type", PyVal.str "pages")] []
      "/tasks" [] (PyVal.str "pages") rfl).1 rfl,
   (c10_get_collection_dispatch [("iterator_type", PyVal.none)] []
      "/tasks" [] PyVal.none rfl).2.2.1 rfl rfl rfl⟩
